import Mathlib

/-!
Verification of the allowance/expectation engine of the dobles test-double
library against its specification.  The file embeds, as executable Lean
definitions, the data model and operations of the engine: Python-like
argument values with custom equality, method signatures and call binding,
allowance records with argument patterns and call-count expectations, the
matching and selection of allowances for an incoming call, the formatted
error messages, and the attribute-interception logic of AllowanceTarget
from src/doubles/targets/allowance_target.py.
-/

/-- Python-like argument values as they occur in the test suite: strings,
integers, the None object, and the two custom-equality test objects
AlwaysEquals (whose eq method returns True for every operand) and
NeverEquals (whose eq method returns False for every operand), tagged with
an id so distinct instances are distinct values. -/
inductive PyVal where
  | str : String → PyVal
  | int : Int → PyVal
  | none : PyVal
  | alwaysEquals : Nat → PyVal
  | neverEquals : Nat → PyVal
deriving DecidableEq, Repr

/-- Python repr of a value, as it appears inside formatted error messages:
strings are wrapped in single quotes, integers print plainly. -/
def pyRepr : PyVal → String
  | .str s => "'" ++ s ++ "'"
  | .int n => toString n
  | .none => "None"
  | .alwaysEquals i => "<AlwaysEquals " ++ toString i ++ ">"
  | .neverEquals i => "<NeverEquals " ++ toString i ++ ">"

/-- Result of the left operand's eq method: some b when the method returns
the boolean b, none when it returns NotImplemented.  AlwaysEquals answers
True to everything, NeverEquals answers False to everything, built-in
values compare structurally with values of their own kind and answer
NotImplemented otherwise. -/
def dunderEq : PyVal → PyVal → Option Bool
  | .alwaysEquals _, _ => some true
  | .neverEquals _, _ => some false
  | .str a, .str b => some (a == b)
  | .int a, .int b => some (a == b)
  | .none, .none => some true
  | _, _ => Option.none

/-- Python rich equality a == b: try the left operand's eq method, fall
back to the reflected method when it returns NotImplemented, and default
to False when both sides abstain. -/
def pyEq (a b : PyVal) : Bool := (dunderEq a b).getD ((dunderEq b a).getD false)

/-- Modelled from the spec: the Argument Matcher compares a declared
pattern value against an actual argument with the object system's native
equality machinery; the custom-eq tests of src/test/async_allow_test.py
(TestBasicAllowance, the two custom eq tests) fix that a pair matches when
either orientation of the comparison succeeds. -/
def matchVal (pat actual : PyVal) : Bool := pyEq pat actual || pyEq actual pat

/-- Runtime signature of a target method, after the self parameter: the
named positional parameters, how many of the trailing ones carry default
values, and whether the method accepts *args or **kwargs. -/
structure MethodSignature where
  params : List String
  defaults : Nat
  hasVarargs : Bool
  hasKwargs : Bool
deriving DecidableEq, Repr

/-- Modelled from the spec: the engine introspects the callable's argument
signature at runtime to validate call shapes; bindCheck decides whether
the supplied positional and keyword arguments can be bound to the
signature, as inspect.signature binding would. -/
def bindCheck (sig : MethodSignature) (args : List PyVal)
    (kwargs : List (String × PyVal)) : Bool :=
  let np := sig.params.length
  let required := np - sig.defaults
  (args.length ≤ np || sig.hasVarargs) &&
  kwargs.all (fun kv =>
    (sig.params.drop (min args.length np)).contains kv.1 || sig.hasKwargs) &&
  (List.range required).all (fun i =>
    decide (i < args.length) || kwargs.any (fun kv => kv.1 == sig.params.getD i ""))

/-- Declared argument pattern of an allowance: anyArgs when none was
specified, exact for with_args / with_no_args, validator for a custom
with_args_validator callable with its own signature and constant boolean
result, validatorRaises for a validator that raises when invoked. -/
inductive ArgsPattern where
  | anyArgs
  | exact (args : List PyVal) (kwargs : List (String × PyVal))
  | validator (sig : MethodSignature) (result : Bool)
  | validatorRaises
deriving DecidableEq, Repr

/-- Declared call-count expectation of an allowance: unlimited by default,
exactly n for once / twice / never / exactly(n), atLeast n and atMost n
for the corresponding modifiers. -/
inductive CountExpectation where
  | unlimited
  | exactly (n : Nat)
  | atLeast (n : Nat)
  | atMost (n : Nat)
deriving DecidableEq, Repr

/-- An allowance record: the method name it was registered for, its
declared argument pattern, its configured return value, the number of
calls it has satisfied so far, its call-count expectation, and the source
location (file path and line number) where it was declared. -/
structure Allowance where
  methodName : String
  pattern : ArgsPattern
  returnValue : PyVal
  callCount : Nat
  expectation : CountExpectation
  declFile : String
  declLine : Nat
deriving DecidableEq, Repr

/-- Keyword-argument patterns match when they bind the same names and each
declared value matches the actual value supplied under that name. -/
def kwargsMatch (pat act : List (String × PyVal)) : Bool :=
  pat.length == act.length &&
  pat.all (fun kv =>
    match act.find? (fun kv2 => kv2.1 == kv.1) with
    | some kv2 => matchVal kv.2 kv2.2
    | Option.none => false)

/-- Modelled from the spec: whether an allowance with an explicit argument
pattern is satisfied exactly by the supplied arguments.  An anyArgs
allowance never counts as an exact match; an exact pattern requires the
same number of positional arguments, pairwise value matches, and matching
keyword arguments; a custom validator matches when the arguments bind to
its signature and it returns True; a raising validator never matches. -/
def isSpecificMatch (a : Allowance) (args : List PyVal)
    (kwargs : List (String × PyVal)) : Bool :=
  match a.pattern with
  | .anyArgs => false
  | .exact pargs pkw =>
      pargs.length == args.length &&
      (List.zip pargs args).all (fun pv => matchVal pv.1 pv.2) &&
      kwargsMatch pkw kwargs
  | .validator sig r => bindCheck sig args kwargs && r
  | .validatorRaises => false

/-- Whether an allowance was declared without any argument pattern and so
accepts any arguments. -/
def isAnyArgsAllowance (a : Allowance) : Bool := a.pattern == ArgsPattern.anyArgs

/-- Modelled from the spec: the engine selects the most specific matching
allowance; allowances with an explicit argument pattern satisfied by the
call take precedence over allowances that accept any arguments, and
within a pass the most recently registered allowance wins. -/
def findMatching (allowances : List Allowance) (args : List PyVal)
    (kwargs : List (String × PyVal)) : Option Allowance :=
  match allowances.reverse.find? (fun a => isSpecificMatch a args kwargs) with
  | some a => some a
  | Option.none => allowances.reverse.find? isAnyArgsAllowance

/-- Pluralized count phrase used in call-count failure messages: 1 time,
otherwise n times. -/
def timesStr (n : Nat) : String :=
  toString n ++ (if n == 1 then " time" else " times")

/-- Formats supplied arguments for error messages: positional reprs first,
then keyword arguments as name=repr, comma separated inside parens. -/
def formatArgs (args : List PyVal) (kwargs : List (String × PyVal)) : String :=
  "(" ++ String.intercalate ", "
    (args.map pyRepr ++ kwargs.map (fun kv => kv.1 ++ "=" ++ pyRepr kv.2)) ++ ")"

/-- Modelled from the spec: the formatted message of
UnallowedMethodCallError, naming the called method, describing the target
double, listing the supplied arguments, and stating that they match no
available allowance, in the exact shape the test suite asserts. -/
def unallowedMessage (methodName targetDesc : String) (args : List PyVal)
    (kwargs : List (String × PyVal)) : String :=
  "Received unexpected call to '" ++ methodName ++ "' on " ++ targetDesc ++
  ".  The supplied arguments " ++ formatArgs args kwargs ++
  " do not match any available allowances."

/-- Phrase for the declared call count inside a failure message. -/
def expectedCountPhrase : CountExpectation → String
  | .unlimited => "unlimited times"
  | .exactly n => timesStr n
  | .atLeast n => "at least " ++ timesStr n
  | .atMost n => "at most " ++ timesStr n

/-- Phrase describing the argument pattern of an allowance inside a
failure message. -/
def patternPhrase : ArgsPattern → String
  | .anyArgs => "with any args"
  | .exact args kwargs => "with args " ++ formatArgs args kwargs
  | .validator _ _ => "with custom matcher"
  | .validatorRaises => "with custom matcher"

/-- Stack-trace-derived location string appended to call-count failure
messages: the source file path and line number, in parens, of the place
where the allowance was declared. -/
def locationSuffix (file : String) (line : Nat) : String :=
  "(" ++ file ++ ":" ++ toString line ++ ")"

/-- Modelled from the spec: the formatted message of MockExpectationError
for a call-count violation, reporting the allowed count versus the actual
count and ending with the source location where the allowance was
declared, in the exact shape the test suite asserts. -/
def countFailureMessage (a : Allowance) (actual : Nat) (targetDesc : String) : String :=
  "Allowed '" ++ a.methodName ++ "' to be called " ++
  expectedCountPhrase a.expectation ++ " instead of " ++ timesStr actual ++
  " on " ++ targetDesc ++ " " ++ patternPhrase a.pattern ++
  ", but was not. " ++ locationSuffix a.declFile a.declLine

/-- Modelled from the spec: message of VerifyingDoubleArgumentError when
supplied arguments cannot be bound to the real method's signature. -/
def verifyArgMessage (methodName : String) (args : List PyVal)
    (kwargs : List (String × PyVal)) : String :=
  "Args " ++ formatArgs args kwargs ++
  " do not match the signature of method '" ++ methodName ++ "'."

/-- Exceptions the engine raises on a method call or at verification. -/
inductive DoubleError where
  | unallowedMethodCall (msg : String)
  | verifyingDoubleArgument (msg : String)
  | mockExpectation (msg : String)
deriving DecidableEq, Repr

/-- Whether the call-count expectation is violated once the allowance has
satisfied actual calls: upper bounds (exactly n, atMost n) are enforced,
lower bounds are not enforced at call time. -/
def violatesCount : CountExpectation → Nat → Bool
  | .exactly n, actual => decide (n < actual)
  | .atMost n, actual => decide (n < actual)
  | _, _ => false

/-- The double installed for one method of a target: the method name, the
real method's runtime signature, the printable description of the target
double, and the registered allowances in registration order. -/
structure MethodDouble where
  methodName : String
  signature : MethodSignature
  targetDesc : String
  allowances : List Allowance
deriving DecidableEq, Repr

/-- Increments the call count of the matched allowance inside the method
double's registry. -/
def incrementIn (md : MethodDouble) (a : Allowance) : MethodDouble :=
  { md with allowances := md.allowances.map (fun x =>
      if x == a then { x with callCount := x.callCount + 1 } else x) }

/-- Modelled from the spec: handling of one incoming call on the double.
The engine first matches the call against the registered allowances,
selecting the most specific match; with no match it raises
UnallowedMethodCallError.  The matched call is then verified against the
real method's runtime signature, raising VerifyingDoubleArgumentError when
the arguments cannot be bound.  Finally the call count is checked against
the declared expectation: exceeding an upper bound raises
MockExpectationError at the violating call itself, as the test suite shows
by catching the error around the call before teardown runs; otherwise the
call succeeds with the allowance's configured return value. -/
def callMethod (md : MethodDouble) (args : List PyVal)
    (kwargs : List (String × PyVal)) : Except DoubleError (MethodDouble × PyVal) :=
  match findMatching md.allowances args kwargs with
  | Option.none =>
      .error (.unallowedMethodCall
        (unallowedMessage md.methodName md.targetDesc args kwargs))
  | some a =>
      if bindCheck md.signature args kwargs then
        if violatesCount a.expectation (a.callCount + 1) then
          .error (.mockExpectation
            (countFailureMessage a (a.callCount + 1) md.targetDesc))
        else
          .ok (incrementIn md a, a.returnValue)
      else
        .error (.verifyingDoubleArgument
          (verifyArgMessage md.methodName args kwargs))

/-- Value-level result of a call, discarding the updated registry. -/
def callResult (md : MethodDouble) (args : List PyVal)
    (kwargs : List (String × PyVal)) : Except DoubleError PyVal :=
  (callMethod md args kwargs).map (fun r => r.2)

/-- Runs one successful call and keeps the updated double; on an error the
double is unchanged. -/
def stepOk (md : MethodDouble) (args : List PyVal)
    (kwargs : List (String × PyVal)) : MethodDouble :=
  match callMethod md args kwargs with
  | .ok r => r.1
  | .error _ => md

/-- Modelled from the spec: teardown of a method double.  Teardown
restores the patched method and performs no call-count verification for
allowances: the test suite calls teardown after already catching the
MockExpectationError at the violating call, and tests that under-call an
at_least or exactly allowance pass, so teardown raises nothing for
allowances. -/
def teardownVerify (_md : MethodDouble) : Except DoubleError Unit := .ok ()

/-- Modelled from the spec: validation shared by the call-count modifiers.
A negative argument raises TypeError with the message naming the modifier
and demanding one positive integer argument; any other integer, including
zero, is accepted. -/
def validateCallCountArg (modifierName : String) (n : Int) : Except String Unit :=
  if n < 0 then .error (modifierName ++ " requires one positive integer argument")
  else .ok ()

/-- Modelled from the spec: the exactly(n) call-count modifier. -/
def exactlyModifier (n : Int) : Except String CountExpectation :=
  match validateCallCountArg "exactly" n with
  | .error e => .error e
  | .ok _ => .ok (.exactly n.toNat)

/-- Modelled from the spec: the at_least(n) call-count modifier. -/
def atLeastModifier (n : Int) : Except String CountExpectation :=
  match validateCallCountArg "at_least" n with
  | .error e => .error e
  | .ok _ => .ok (.atLeast n.toNat)

/-- Modelled from the spec: the at_most(n) call-count modifier. -/
def atMostModifier (n : Int) : Except String CountExpectation :=
  match validateCallCountArg "at_most" n with
  | .error e => .error e
  | .ok _ => .ok (.atMost n.toNat)

/-- Modelled from the spec: the Allowance Registry, a per-proxy mapping
from method name to the ordered collection of Allowance records
registered for that method. -/
structure Proxy where
  targetId : Nat
  registry : List (String × List Allowance)
deriving DecidableEq, Repr

/-- Looks up the ordered allowance collection registered under a method
name; an absent name maps to the empty collection. -/
def registryGet : List (String × List Allowance) → String → List Allowance
  | [], _ => []
  | e :: rest, name => if e.1 == name then e.2 else registryGet rest name

/-- Appends an allowance to the collection registered under a method
name, creating the entry when the name is new. -/
def registryAppend (r : List (String × List Allowance)) (name : String)
    (a : Allowance) : List (String × List Allowance) :=
  match r with
  | [] => [(name, [a])]
  | e :: rest =>
      if e.1 == name then (e.1, e.2 ++ [a]) :: rest
      else e :: registryAppend rest name a

/-- Modelled from the spec: Proxy.add_allowance registers a fresh default
allowance (any arguments, unlimited calls, None return value) for the
given method name on the proxy and returns it. -/
def addAllowance (p : Proxy) (name : String) : Proxy × Allowance :=
  let a : Allowance :=
    { methodName := name, pattern := .anyArgs, returnValue := .none,
      callCount := 0, expectation := .unlimited, declFile := "", declLine := 0 }
  ({ p with registry := registryAppend p.registry name a }, a)

/-- Modelled from the spec: the ambient Space holding one proxy per
target object; targets are identified by id. -/
structure SpaceModel where
  proxies : List (Nat × Proxy)
deriving DecidableEq, Repr

/-- Modelled from the spec: Space.proxy_for returns the proxy already
wrapping the target, creating and storing a fresh empty proxy when the
target has none yet. -/
def proxyFor (s : SpaceModel) (targetId : Nat) : SpaceModel × Proxy :=
  match s.proxies.find? (fun e => e.1 == targetId) with
  | some e => (s, e.2)
  | Option.none =>
      let p : Proxy := { targetId := targetId, registry := [] }
      ({ proxies := s.proxies ++ [(targetId, p)] }, p)

/-- Instance dictionary of an AllowanceTarget: attribute names mapped to
stored values; the only value ever stored is the proxy. -/
def dictGet : List (String × Proxy) → String → Option Proxy
  | [], _ => Option.none
  | e :: rest, name => if e.1 == name then some e.2 else dictGet rest name

/-- Outcome of AllowanceTarget attribute access: a value found in the
instance dictionary, a delegation to the proxy's add_allowance, or
divergence of the recursive self lookup when the proxy is absent. -/
inductive GetattrResult where
  | value (p : Proxy)
  | addAllowanceOn (proxy : Proxy) (attrName : String)
  | diverge
deriving DecidableEq, Repr

/-- Embeds AllowanceTarget.getattribute from
src/doubles/targets/allowance_target.py: when the instance dictionary is
non-empty and holds the attribute name, the stored value is returned;
every other access reads self dot proxy (itself resolved through the same
dictionary, diverging when absent) and delegates to its add_allowance
with the attribute name. -/
def allowanceTargetGetattr (dict : List (String × Proxy))
    (attrName : String) : GetattrResult :=
  match dict, dictGet dict attrName with
  | _ :: _, some v => .value v
  | _, _ =>
      match dictGet dict "_proxy" with
      | some p => .addAllowanceOn p attrName
      | Option.none => .diverge

/-- State of an AllowanceTarget: just its instance dictionary, which the
constructor populates with the single proxy entry. -/
structure AllowanceTargetModel where
  dict : List (String × Proxy)
deriving DecidableEq, Repr

/-- Embeds allow from src/doubles/targets/allowance_target.py: builds an
AllowanceTarget whose constructor stores, under the proxy attribute name,
the proxy obtained from the current space for the target. -/
def allowModel (s : SpaceModel) (targetId : Nat) : SpaceModel × AllowanceTargetModel :=
  let sp := proxyFor s targetId
  (sp.1, { dict := [("_proxy", sp.2)] })

/-- Attribute access on an AllowanceTarget followed by the delegated
add_allowance call, yielding the updated proxy and the fresh allowance
when the access delegates, and nothing when it reads the dictionary. -/
def allowanceAccess (t : AllowanceTargetModel) (name : String) :
    Option (Proxy × Allowance) :=
  match allowanceTargetGetattr t.dict name with
  | .addAllowanceOn p n => some (addAllowance p n)
  | _ => Option.none

/-- A record of one monkey-patched attribute: which target object, which
attribute, and the original value the attribute held before patching. -/
structure Patch where
  targetId : Nat
  attrName : String
  original : PyVal
deriving DecidableEq, Repr

/-- Attribute store of the live objects: the value each attribute of each
target currently holds. -/
def AttrStore : Type := Nat → String → PyVal

/-- Sets one attribute of one target in the store. -/
def setAttr (st : AttrStore) (targetId : Nat) (attrName : String)
    (v : PyVal) : AttrStore :=
  fun t a => if t = targetId ∧ a = attrName then v else st t a

/-- Restores the original value recorded by one patch. -/
def restoreOne (st : AttrStore) (p : Patch) : AttrStore :=
  setAttr st p.targetId p.attrName p.original

/-- Modelled from the spec: the restore phase of teardown puts back, for
every patch the space recorded during the test, the original value of the
patched attribute on its target object. -/
def teardownRestore (st : AttrStore) (patches : List Patch) : AttrStore :=
  patches.foldl restoreOne st

/-- Printable description of the InstanceDouble used throughout the test
suite. -/
def asyncUserDesc : String :=
  "<InstanceDouble of <class 'dobles.testing.AsyncUser'> object at 0x0>"

/-- Signature of AsyncUser.instance_method: no parameters after self. -/
def instanceMethodSignature : MethodSignature :=
  { params := [], defaults := 0, hasVarargs := false, hasKwargs := false }

/-- Signature of AsyncUser.method_with_varargs: star-args only. -/
def varargsSignature : MethodSignature :=
  { params := [], defaults := 0, hasVarargs := true, hasKwargs := false }

/-- Signature of AsyncUser.method_with_positional_arguments: one required
positional parameter. -/
def posArgSignature : MethodSignature :=
  { params := ["foo"], defaults := 0, hasVarargs := false, hasKwargs := false }

/-- Signature of AsyncUser.method_with_default_args: one required
parameter and one parameter carrying a default. -/
def defaultArgsSignature : MethodSignature :=
  { params := ["foo", "bar"], defaults := 1, hasVarargs := false, hasKwargs := false }

/-- Specimen any-args allowance on method_with_varargs returning bar, as
registered on line 184 of the async allow test. -/
def anyArgsAllowanceEx : Allowance :=
  { methodName := "method_with_varargs", pattern := .anyArgs,
    returnValue := .str "bar", callCount := 0, expectation := .unlimited,
    declFile := "dobles/test/async_allow_test.py", declLine := 184 }

/-- Specimen with_args allowance on method_with_varargs returning blah, as
registered on line 185 of the async allow test. -/
def withArgsAllowanceEx : Allowance :=
  { methodName := "method_with_varargs", pattern := .exact [.str "baz"] [],
    returnValue := .str "blah", callCount := 0, expectation := .unlimited,
    declFile := "dobles/test/async_allow_test.py", declLine := 185 }

/-- Specimen double carrying the two allowances of the most-specific-match
test, in registration order. -/
def varargsDoubleEx : MethodDouble :=
  { methodName := "method_with_varargs", signature := varargsSignature,
    targetDesc := asyncUserDesc,
    allowances := [anyArgsAllowanceEx, withArgsAllowanceEx] }

/-- Specimen allowance declared with twice() on instance_method. -/
def twiceAllowanceEx : Allowance :=
  { methodName := "instance_method", pattern := .anyArgs, returnValue := .none,
    callCount := 0, expectation := .exactly 2,
    declFile := "dobles/test/async_allow_test.py", declLine := 248 }

/-- Specimen double for the twice() scenario before any call. -/
def twiceDoubleEx : MethodDouble :=
  { methodName := "instance_method", signature := instanceMethodSignature,
    targetDesc := asyncUserDesc, allowances := [twiceAllowanceEx] }

/-- The twice() double after its two permitted calls have happened. -/
def twiceDoubleAfterTwoCalls : MethodDouble :=
  stepOk (stepOk twiceDoubleEx [] []) [] []

/-- The twice() allowance once it has satisfied two calls. -/
def twiceUsedAllowanceEx : Allowance := { twiceAllowanceEx with callCount := 2 }

/-- The twice() double with its allowance already used twice. -/
def twiceUsedDoubleEx : MethodDouble :=
  { twiceDoubleEx with allowances := [twiceUsedAllowanceEx] }

/-- Specimen allowance on instance_method declared with a custom args
validator taking one positional argument and returning True. -/
def validatorTrueAllowanceEx : Allowance :=
  { methodName := "instance_method",
    pattern := .validator
      { params := ["x"], defaults := 0, hasVarargs := false, hasKwargs := false } true,
    returnValue := .none, callCount := 0, expectation := .unlimited,
    declFile := "dobles/test/async_allow_test.py", declLine := 593 }

/-- Specimen double for the custom-validator signature-mismatch test. -/
def validatorDoubleEx : MethodDouble :=
  { methodName := "instance_method", signature := instanceMethodSignature,
    targetDesc := asyncUserDesc, allowances := [validatorTrueAllowanceEx] }

/-- A with_args allowance on method_with_positional_arguments whose single
declared pattern value is the given one. -/
def posArgAllowance (v : PyVal) : Allowance :=
  { methodName := "method_with_positional_arguments", pattern := .exact [v] [],
    returnValue := .none, callCount := 0, expectation := .unlimited,
    declFile := "dobles/test/async_allow_test.py", declLine := 58 }

/-- Double holding exactly the one positional with_args allowance. -/
def posArgDouble (v : PyVal) : MethodDouble :=
  { methodName := "method_with_positional_arguments", signature := posArgSignature,
    targetDesc := asyncUserDesc, allowances := [posArgAllowance v] }

/-- Specimen with_args allowance on method_with_default_args declared with
one positional and one keyword argument. -/
def defaultArgsAllowanceEx : Allowance :=
  { methodName := "method_with_default_args",
    pattern := .exact [.str "one"] [("bar", .str "two")],
    returnValue := .none, callCount := 0, expectation := .unlimited,
    declFile := "dobles/test/async_allow_test.py", declLine := 128 }

/-- Specimen double for the unallowed-call message test. -/
def defaultArgsDoubleEx : MethodDouble :=
  { methodName := "method_with_default_args", signature := defaultArgsSignature,
    targetDesc := asyncUserDesc, allowances := [defaultArgsAllowanceEx] }

/-- Specimen proxy with an empty registry. -/
def exProxy : Proxy := { targetId := 0, registry := [] }

/-- Specimen space holding no proxies yet. -/
def emptySpace : SpaceModel := { proxies := [] }

/-- Attribute store of the pristine objects before any patching. -/
def origStore : AttrStore := fun _ _ => PyVal.str "original"

/-- Attribute store after the doubles have been patched in. -/
def patchedStore : AttrStore :=
  setAttr (setAttr origStore 1 "instance_method" (.str "double1"))
    2 "method_with_doc" (.str "double2")

/-- Patch record for the first replaced method. -/
def patchA : Patch :=
  { targetId := 1, attrName := "instance_method", original := .str "orig1" }

/-- Patch record for the second replaced method. -/
def patchB : Patch :=
  { targetId := 2, attrName := "method_with_doc", original := .str "orig2" }

/-- Helper: appending an allowance under a name extends exactly that
name's ordered collection in the registry. -/
theorem registryGet_registryAppend (r : List (String × List Allowance))
    (name : String) (a : Allowance) :
    registryGet (registryAppend r name a) name = registryGet r name ++ [a] := by
  induction r with
  | nil => simp [registryAppend, registryGet]
  | cons e rest ih =>
      by_cases he : (e.1 == name) = true
      · simp [registryAppend, registryGet, he]
      · simp [registryAppend, registryGet, he, ih]

/-- Helper: restoring patches whose keys all differ from the given target
and attribute leaves that attribute unchanged. -/
theorem teardownRestore_preserves (ps : List Patch) (st : AttrStore)
    (t : Nat) (a : String)
    (h : ∀ q ∈ ps, q.targetId ≠ t ∨ q.attrName ≠ a) :
    teardownRestore st ps t a = st t a := by
  induction ps generalizing st with
  | nil => rfl
  | cons q rest ih =>
      have hrest : ∀ r ∈ rest, r.targetId ≠ t ∨ r.attrName ≠ a :=
        fun r hr => h r (List.mem_cons_of_mem q hr)
      have hq := h q (List.mem_cons_self q rest)
      show teardownRestore (restoreOne st q) rest t a = st t a
      rw [ih (restoreOne st q) hrest]
      unfold restoreOne setAttr
      rcases hq with hq | hq
      · rw [if_neg (fun hc => hq hc.1.symm)]
      · rw [if_neg (fun hc => hq hc.2.symm)]

/-- C9: attribute access on an AllowanceTarget returns the value stored in
its instance dictionary only for names that are keys of the dictionary,
which after construction is solely the proxy entry; every other name,
whatever it is, is delegated to the proxy's add_allowance with the
attribute name. -/
theorem allowance_target_getattr_delegates (p : Proxy) (name : String)
    (h : name ≠ "_proxy") :
    allowanceTargetGetattr [("_proxy", p)] "_proxy" = .value p ∧
    allowanceTargetGetattr [("_proxy", p)] name = .addAllowanceOn p name := by
  have hb : ("_proxy" == name) = false := by
    simp only [beq_eq_false_iff_ne]
    exact fun e => h e.symm
  constructor
  · rfl
  · simp [allowanceTargetGetattr, dictGet, hb]

/-- C9 witness: with a concrete proxy, the special name given as
attribute, although it exists on every Python object, is not in the
instance dictionary and so registers an allowance. -/
theorem allowance_target_getattr_delegates_witness :
    allowanceTargetGetattr [("_proxy", exProxy)] "_proxy" = .value exProxy ∧
    allowanceTargetGetattr [("_proxy", exProxy)] "__class__" =
      .addAllowanceOn exProxy "__class__" :=
  allowance_target_getattr_delegates exProxy "__class__" (by decide)

/-- C2: allow wraps the target in an AllowanceTarget whose stored proxy is
the one the current space yields for the target, and attribute access for
any name not stored in the instance dictionary registers, via that
proxy's add_allowance, a fresh allowance for the name, extending the
registry entry of exactly that method name. -/
theorem allow_registers_through_attribute_access (s : SpaceModel)
    (targetId : Nat) (name : String) (h : name ≠ "_proxy") :
    (allowModel s targetId).2.dict = [("_proxy", (proxyFor s targetId).2)] ∧
    ∃ p2 a, allowanceAccess (allowModel s targetId).2 name = some (p2, a) ∧
      a.methodName = name ∧
      registryGet p2.registry name =
        registryGet (proxyFor s targetId).2.registry name ++ [a] := by
  have hb : ("_proxy" == name) = false := by
    simp only [beq_eq_false_iff_ne]
    exact fun e => h e.symm
  refine ⟨rfl, (addAllowance (proxyFor s targetId).2 name).1,
    (addAllowance (proxyFor s targetId).2 name).2, ?_, rfl, ?_⟩
  · simp [allowanceAccess, allowanceTargetGetattr, allowModel, dictGet, hb, addAllowance]
  · exact registryGet_registryAppend (proxyFor s targetId).2.registry name _

/-- C2 witness: allowing a fresh target in an empty space and accessing
the instance_method attribute registers an allowance under that method
name. -/
theorem allow_registers_through_attribute_access_witness :
    (allowModel emptySpace 0).2.dict = [("_proxy", (proxyFor emptySpace 0).2)] ∧
    ∃ p2 a, allowanceAccess (allowModel emptySpace 0).2 "instance_method" = some (p2, a) ∧
      a.methodName = "instance_method" ∧
      registryGet p2.registry "instance_method" =
        registryGet (proxyFor emptySpace 0).2.registry "instance_method" ++ [a] :=
  allow_registers_through_attribute_access emptySpace 0 "instance_method" (by decide)

/-- C10: each call-count modifier rejects every negative integer argument
with a TypeError whose message names the modifier and demands one
positive integer argument, while the boundary value zero is accepted by
all three modifiers. -/
theorem call_count_modifiers_validate_argument (n : Int) (h : n < 0) :
    exactlyModifier n = .error "exactly requires one positive integer argument" ∧
    atLeastModifier n = .error "at_least requires one positive integer argument" ∧
    atMostModifier n = .error "at_most requires one positive integer argument" ∧
    exactlyModifier 0 = .ok (.exactly 0) ∧
    atLeastModifier 0 = .ok (.atLeast 0) ∧
    atMostModifier 0 = .ok (.atMost 0) := by
  have hv : ∀ m : String,
      validateCallCountArg m n = .error (m ++ " requires one positive integer argument") := by
    intro m
    unfold validateCallCountArg
    rw [if_pos h]
  refine ⟨?_, ?_, ?_, rfl, rfl, rfl⟩
  · unfold exactlyModifier
    rw [hv]
    rfl
  · unfold atLeastModifier
    rw [hv]
    rfl
  · unfold atMostModifier
    rw [hv]
    rfl

/-- C10 witness: at the concrete argument -1 all three modifiers raise,
and at 0 they all accept. -/
theorem call_count_modifiers_validate_argument_witness :
    exactlyModifier (-1) = .error "exactly requires one positive integer argument" ∧
    atLeastModifier (-1) = .error "at_least requires one positive integer argument" ∧
    atMostModifier (-1) = .error "at_most requires one positive integer argument" ∧
    exactlyModifier 0 = .ok (.exactly 0) ∧
    atLeastModifier 0 = .ok (.atLeast 0) ∧
    atMostModifier 0 = .ok (.atMost 0) :=
  call_count_modifiers_validate_argument (-1) (by decide)

/-- C8: when the patches recorded during a test touch pairwise distinct
target attributes, running the restore phase of teardown puts every
patched attribute of every target object back to its recorded original
value. -/
theorem teardown_restores_originals (st : AttrStore) (patches : List Patch)
    (hnd : patches.Pairwise (fun p q => p.targetId ≠ q.targetId ∨ p.attrName ≠ q.attrName)) :
    ∀ p ∈ patches, teardownRestore st patches p.targetId p.attrName = p.original := by
  induction patches generalizing st with
  | nil => intro p hp; cases hp
  | cons q rest ih =>
      intro p hp
      rcases List.mem_cons.mp hp with hpq | hp2
      · subst hpq
        have hrest : ∀ r ∈ rest, r.targetId ≠ p.targetId ∨ r.attrName ≠ p.attrName := by
          intro r hr
          rcases (List.pairwise_cons.mp hnd).1 r hr with h1 | h2
          · exact Or.inl h1.symm
          · exact Or.inr h2.symm
        show teardownRestore (restoreOne st p) rest p.targetId p.attrName = p.original
        rw [teardownRestore_preserves rest (restoreOne st p) _ _ hrest]
        unfold restoreOne setAttr
        rw [if_pos ⟨rfl, rfl⟩]
      · exact ih (restoreOne st q) (List.pairwise_cons.mp hnd).2 p hp2

/-- C8 witness: restoring the two concrete patches puts the first target's
instance_method attribute back to its original value. -/
theorem teardown_restores_originals_witness :
    teardownRestore patchedStore [patchA, patchB] 1 "instance_method" = .str "orig1" :=
  teardown_restores_originals patchedStore [patchA, patchB]
    (by simp [List.pairwise_cons, patchA, patchB])
    patchA (List.mem_cons_self patchA [patchB])

/-- C1: with both an any-args allowance and a with_args allowance whose
explicit pattern matches the supplied arguments registered for the same
method, in either registration order, the engine selects the with_args
allowance as the most specific match and the call returns its configured
return value. -/
theorem most_specific_allowance_wins (md : MethodDouble)
    (aAny aSpec : Allowance) (args : List PyVal)
    (kwargs : List (String × PyVal))
    (hreg : md.allowances = [aAny, aSpec] ∨ md.allowances = [aSpec, aAny])
    (hany : aAny.pattern = .anyArgs)
    (hspec : isSpecificMatch aSpec args kwargs = true)
    (hbind : bindCheck md.signature args kwargs = true)
    (hcount : violatesCount aSpec.expectation (aSpec.callCount + 1) = false) :
    callResult md args kwargs = .ok aSpec.returnValue := by
  have hanyF : isSpecificMatch aAny args kwargs = false := by
    simp [isSpecificMatch, hany]
  rcases hreg with hreg | hreg <;>
    simp [callResult, callMethod, findMatching, hreg, List.find?, hspec, hanyF,
      hbind, hcount, Except.map]

/-- C1 witness: the concrete scenario of the most-specific-match test, an
any-args allowance returning bar registered before a with_args allowance
on baz returning blah; calling with baz yields blah. -/
theorem most_specific_allowance_wins_witness :
    callResult varargsDoubleEx [.str "baz"] [] = .ok (.str "blah") :=
  most_specific_allowance_wins varargsDoubleEx anyArgsAllowanceEx
    withArgsAllowanceEx [.str "baz"] [] (Or.inl rfl) rfl (by decide) (by decide)
    (by decide)

/-- C3 counterexample: in the twice() scenario of the test suite, the
third call on the double itself yields the MockExpectationError, with its
fully formatted message, while teardown verification of the same double
raises nothing; so the error is raised at the violating call and not at
verification/teardown time, contrary to the claim. -/
theorem count_violation_not_raised_at_teardown :
    callResult twiceDoubleAfterTwoCalls [] [] =
      .error (.mockExpectation
        ("Allowed 'instance_method' to be called 2 times instead of 3 times on " ++
         "<InstanceDouble of <class 'dobles.testing.AsyncUser'> object at 0x0> " ++
         "with any args, but was not. (dobles/test/async_allow_test.py:248)")) ∧
    teardownVerify twiceDoubleAfterTwoCalls = .ok () := by
  constructor
  · rfl
  · rfl

/-- C3 amended: for every allowance with a declared call-count constraint,
a call that violates the constraint yields a MockExpectationError whose
message reports the allowed count versus the actual count, raised
immediately at the violating call itself, while teardown verification of
the double raises nothing for allowances. -/
theorem count_violation_raises_at_call (md : MethodDouble) (a : Allowance)
    (args : List PyVal) (kwargs : List (String × PyVal))
    (hmatch : findMatching md.allowances args kwargs = some a)
    (hbind : bindCheck md.signature args kwargs = true)
    (hviol : violatesCount a.expectation (a.callCount + 1) = true) :
    callResult md args kwargs =
      .error (.mockExpectation (countFailureMessage a (a.callCount + 1) md.targetDesc)) ∧
    teardownVerify md = .ok () := by
  refine ⟨?_, rfl⟩
  simp [callResult, callMethod, hmatch, hbind, hviol, Except.map]

/-- C3 amended witness: the twice() allowance already called twice, so
that the next call is the third, raises the formatted count error at the
call and teardown raises nothing. -/
theorem count_violation_raises_at_call_witness :
    callResult twiceUsedDoubleEx [] [] =
      .error (.mockExpectation (countFailureMessage twiceUsedAllowanceEx 3 asyncUserDesc)) ∧
    teardownVerify twiceUsedDoubleEx = .ok () :=
  count_violation_raises_at_call twiceUsedDoubleEx twiceUsedAllowanceEx [] []
    (by decide) (by decide) (by decide)

/-- C4: whenever the supplied arguments of a call cannot be bound to the
real method's runtime signature, the call raises
VerifyingDoubleArgumentError, even though an allowance matched the call
and would otherwise have accepted it. -/
theorem signature_mismatch_raises_verifying_error (md : MethodDouble)
    (a : Allowance) (args : List PyVal) (kwargs : List (String × PyVal))
    (hmatch : findMatching md.allowances args kwargs = some a)
    (hbind : bindCheck md.signature args kwargs = false) :
    callResult md args kwargs =
      .error (.verifyingDoubleArgument (verifyArgMessage md.methodName args kwargs)) := by
  simp [callResult, callMethod, hmatch, hbind, Except.map]

/-- C4 witness: an allowance whose custom args validator accepts one
positional argument and returns True matches the call, yet the call does
not bind to the parameterless signature of instance_method and raises
VerifyingDoubleArgumentError. -/
theorem signature_mismatch_raises_verifying_error_witness :
    callResult validatorDoubleEx [.str "bob"] [] =
      .error (.verifyingDoubleArgument
        (verifyArgMessage "instance_method" [.str "bob"] [])) :=
  signature_mismatch_raises_verifying_error validatorDoubleEx
    validatorTrueAllowanceEx [.str "bob"] [] (by decide) (by decide)

/-- C5: argument matching uses the object system's native equality: a
with_args allowance whose declared pattern object never compares equal to
anything still matches, and is selected for, a call whose actual argument
compares equal to everything, and a with_args allowance whose pattern
compares equal to everything matches a call whose actual argument never
compares equal, with both calls succeeding. -/
theorem custom_eq_objects_match (i j : Nat) :
    isSpecificMatch (posArgAllowance (.neverEquals i)) [.alwaysEquals j] [] = true ∧
    isSpecificMatch (posArgAllowance (.alwaysEquals i)) [.neverEquals j] [] = true ∧
    callResult (posArgDouble (.neverEquals i)) [.alwaysEquals j] [] = .ok .none ∧
    callResult (posArgDouble (.alwaysEquals i)) [.neverEquals j] [] = .ok .none := by
  refine ⟨rfl, rfl, rfl, rfl⟩

/-- C6: a call on an allowed method whose supplied arguments match no
registered allowance raises UnallowedMethodCallError, and its formatted
message names the called method, describes the target double, lists the
supplied positional and keyword arguments, and states that they do not
match any available allowances. -/
theorem unmatched_call_raises_unallowed (md : MethodDouble)
    (args : List PyVal) (kwargs : List (String × PyVal))
    (hmatch : findMatching md.allowances args kwargs = Option.none) :
    callResult md args kwargs =
      .error (.unallowedMethodCall
        ("Received unexpected call to '" ++ md.methodName ++ "' on " ++
         md.targetDesc ++ ".  The supplied arguments " ++
         formatArgs args kwargs ++ " do not match any available allowances.")) := by
  simp [callResult, callMethod, hmatch, unallowedMessage, Except.map]

/-- C6 witness: a with_args allowance declared with one positional and one
keyword argument does not match a call with no arguments, which raises
the fully formatted UnallowedMethodCallError. -/
theorem unmatched_call_raises_unallowed_witness :
    callResult defaultArgsDoubleEx [] [] =
      .error (.unallowedMethodCall
        ("Received unexpected call to '" ++ "method_with_default_args" ++ "' on " ++
         asyncUserDesc ++ ".  The supplied arguments " ++ formatArgs [] [] ++
         " do not match any available allowances.")) :=
  unmatched_call_raises_unallowed defaultArgsDoubleEx [] [] (by decide)

/-- C7: every MockExpectationError a call produces for a call-count
violation comes from the matched allowance and its message ends with the
stack-trace-derived location string of that allowance, the source file
path and line number of the place where it was declared. -/
theorem count_error_message_ends_with_location (md : MethodDouble)
    (args : List PyVal) (kwargs : List (String × PyVal)) (msg : String)
    (h : callMethod md args kwargs = .error (.mockExpectation msg)) :
    ∃ a pre, findMatching md.allowances args kwargs = some a ∧
      msg = pre ++ locationSuffix a.declFile a.declLine := by
  unfold callMethod at h
  split at h
  next => simp at h
  next a heq =>
    split at h
    next hb =>
      split at h
      next hv =>
        simp only [Except.error.injEq, DoubleError.mockExpectation.injEq] at h
        refine ⟨a, "Allowed '" ++ a.methodName ++ "' to be called " ++
          expectedCountPhrase a.expectation ++ " instead of " ++
          timesStr (a.callCount + 1) ++ " on " ++ md.targetDesc ++ " " ++
          patternPhrase a.pattern ++ ", but was not. ", heq, ?_⟩
        rw [← h]
        rfl
      next hv => simp at h
    next hb => simp at h

/-- C7 witness: the concrete third call on the used-up twice() allowance
produces a MockExpectationError whose message ends with the declaration
location of that allowance. -/
theorem count_error_message_ends_with_location_witness :
    ∃ a pre, findMatching twiceUsedDoubleEx.allowances [] [] = some a ∧
      countFailureMessage twiceUsedAllowanceEx 3 asyncUserDesc =
        pre ++ locationSuffix a.declFile a.declLine :=
  count_error_message_ends_with_location twiceUsedDoubleEx [] []
    (countFailureMessage twiceUsedAllowanceEx 3 asyncUserDesc) (by rfl)
